import Mathlib

/-!
Verification development for the capnweb transport and codec layer.

The definitions below are a shallow embedding of the TypeScript sources:
codec classifiers (JsonCodec, PostMessageCodec, ObjectCodec, both V8Codec
variants), the byte-stream framing of StreamTransport, and the event-driven
state of MessagePortTransport, WebSocketTransport and ChromeExtensionTransport.
Host values are modelled by the observable features those classifiers and
transports inspect: the typeof tag, the exact prototype, instanceof flags,
the raw-subtree brand, and opaque payloads.
-/

namespace CapnWeb

/-- Classification kinds of TypeForRpc in codec.js, plus raw-subtree which
PostMessageCodec.typeForRpc can return. -/
inductive TypeForRpc
  | unsupported
  | primitive
  | object
  | function
  | array
  | date
  | bigint
  | bytes
  | stub
  | rpcPromise
  | rpcTarget
  | rpcThenable
  | error
  | errorRaw
  | undefined
  | raw
  | rawSubtree
  deriving DecidableEq

/-- Host environment: whether the cloudflare workers interop module was
injected (codec.js line 189 tests navigator.userAgent). -/
structure Env where
  workersPresent : Bool
  deriving DecidableEq

/-- The four classes of JavaScript numbers the spec distinguishes. -/
inductive NumKind
  | finite
  | posInf
  | negInf
  | nan
  deriving DecidableEq

/-- Exact prototype of an object, as switched on by JsonCodec.typeForRpc.
otherProto covers every prototype not in the switch, e.g. Error.prototype or
the prototype of a subclass of Array, Date or Uint8Array. -/
inductive ProtoTag
  | objectProto
  | functionProto
  | arrayProto
  | dateProto
  | uint8ArrayProto
  | rpcStubProto
  | rpcPromiseProto
  | workersRpcStubProto
  | workersRpcPromiseProto
  | workersRpcPropertyProto
  | otherProto
  deriving DecidableEq

/-- Observable features of a JavaScript value whose typeof is object or
function: the exact prototype, instanceof facts, structured-clone facts, and
the raw-subtree brand payload when the value carries the brand property. -/
structure HostObject where
  proto : ProtoTag
  typeofFn : Bool := false
  isWorkersServiceStub : Bool := false
  isRpcTargetInst : Bool := false
  isErrorInst : Bool := false
  isArrayBufferView : Bool := false
  isArrayBuffer : Bool := false
  isMapOrSet : Bool := false
  isRegExp : Bool := false
  rawBrand : Option Nat := none
  deriving DecidableEq

/-- A host value, split by typeof (plus null). -/
inductive HostValue
  | boolean (b : Bool)
  | number (k : NumKind)
  | string (s : String)
  | undefined
  | bigint
  | symbol
  | null
  | obj (o : HostObject)
  deriving DecidableEq

/-- JsonCodec.typeForRpc from codec.js (src/unnamed/part_005 lines 232-314):
a typeof switch, a null check, then a switch on the exact prototype with a
default branch testing the workers interop module, instanceof RpcTarget and
instanceof Error. -/
def jsonTypeForRpc (env : Env) : HostValue → TypeForRpc
  | .boolean _ => .primitive
  | .number _ => .primitive
  | .string _ => .primitive
  | .undefined => .undefined
  | .bigint => .bigint
  | .symbol => .unsupported
  | .null => .primitive
  | .obj o =>
    match o.proto with
    | .objectProto => .object
    | .functionProto => .function
    | .arrayProto => .array
    | .dateProto => .date
    | .uint8ArrayProto => .bytes
    | .rpcStubProto => .stub
    | .rpcPromiseProto => .rpcPromise
    | _ =>
      if env.workersPresent &&
          (o.proto == .workersRpcStubProto || o.isWorkersServiceStub) then
        .rpcTarget
      else if env.workersPresent &&
          (o.proto == .workersRpcPromiseProto || o.proto == .workersRpcPropertyProto) then
        .rpcThenable
      else if o.isRpcTargetInst then .rpcTarget
      else if o.isErrorInst then .error
      else .unsupported

/-- Modelled from the spec: RawFeatures.StructuredClone from serialize.js,
which is not among the sources. The raw-subtree check in
postmessage-codec.ts only compares the brand payload against this fixed
numeric feature level, so its concrete value is immaterial here. -/
def rawFeaturesStructuredClone : Nat := 1

/-- Modelled from the spec: the composite raw-subtree test of
postmessage-codec.ts line 40, namely isRawSubtreeBranded(value) together
with the brand payload being at most RawFeatures.StructuredClone; the
defining portion of codec.js for isRawSubtreeBranded is not among the
sources, so being branded is modelled as carrying a brand payload. -/
def rawSubtreeStructuredCloneOk (o : HostObject) : Bool :=
  match o.rawBrand with
  | some lvl => decide (lvl ≤ rawFeaturesStructuredClone)
  | none => false

/-- PostMessageCodec.typeForRpc from src/src/postmessage-codec.ts lines
17-65: base classification via JSON_CODEC, remapping primitive, bigint,
date, bytes and undefined to raw and error to error-raw; on an unsupported
base, objects are further tested for the raw-subtree brand, ArrayBuffer
views, ArrayBuffer, Map, Set and RegExp. -/
def postMessageTypeForRpc (env : Env) (v : HostValue) : TypeForRpc :=
  let base := jsonTypeForRpc env v
  if base != .unsupported then
    match base with
    | .primitive => .raw
    | .bigint => .raw
    | .date => .raw
    | .bytes => .raw
    | .undefined => .raw
    | .error => .errorRaw
    | _ => base
  else
    match v with
    | .obj o =>
      if o.typeofFn then base
      else if rawSubtreeStructuredCloneOk o then .rawSubtree
      else if o.isArrayBufferView then .raw
      else if o.isArrayBuffer then .raw
      else if o.isMapOrSet then .raw
      else if o.isRegExp then .raw
      else base
    | _ => base

/-- Modelled from the spec: the free function typeForRpc of core.js, which is
not among the sources (only its callers in part_003 and part_004 are). The
spec section 4.2 fixes one base classification, the one JsonCodec.typeForRpc
implements, so the core classifier is modelled as that classification. -/
def coreTypeForRpc (env : Env) (v : HostValue) : TypeForRpc :=
  jsonTypeForRpc env v

/-- V8Codec.typeForRpc from src/unnamed/part_005 lines 29-31: a literal
delegation to POSTMESSAGE_CODEC.typeForRpc. -/
def v8StreamTypeForRpc (env : Env) (v : HostValue) : TypeForRpc :=
  postMessageTypeForRpc env v

/-- V8Codec.typeForRpc from src/unnamed/part_003 lines 28-77: base
classification via the core typeForRpc, remapping bigint, date, bytes and
undefined to raw while intentionally keeping error as error; on an
unsupported base, objects are tested for ArrayBuffer views, ArrayBuffer,
Map, Set, RegExp and instanceof Error. -/
def v8BaseTypeForRpc (env : Env) (v : HostValue) : TypeForRpc :=
  let base := coreTypeForRpc env v
  if base != .unsupported then
    match base with
    | .bigint => .raw
    | .date => .raw
    | .bytes => .raw
    | .undefined => .raw
    | _ => base
  else
    match v with
    | .obj o =>
      if o.typeofFn then base
      else if o.isArrayBufferView then .raw
      else if o.isArrayBuffer then .raw
      else if o.isMapOrSet then .raw
      else if o.isRegExp then .raw
      else if o.isErrorInst then .errorRaw
      else base
    | _ => base

/-- ObjectCodec.typeForRpc from the object-codec segment concatenated in
src/src/messageport.ts lines 158-160: a literal delegation to
JSON_CODEC.typeForRpc. -/
def objectCodecTypeForRpc (env : Env) (v : HostValue) : TypeForRpc :=
  jsonTypeForRpc env v

/-- ObjectCodec.typeForRpc from src/unnamed/part_004 lines 19-65: base
classification via the core typeForRpc, remapping bigint, date, bytes and
undefined to raw and error to error-raw; on an unsupported base, objects are
tested for ArrayBuffer views, ArrayBuffer, Map, Set and RegExp. -/
def objectBaseTypeForRpc (env : Env) (v : HostValue) : TypeForRpc :=
  let base := coreTypeForRpc env v
  if base != .unsupported then
    match base with
    | .bigint => .raw
    | .date => .raw
    | .bytes => .raw
    | .undefined => .raw
    | .error => .errorRaw
    | _ => base
  else
    match v with
    | .obj o =>
      if o.typeofFn then base
      else if o.isArrayBufferView then .raw
      else if o.isArrayBuffer then .raw
      else if o.isMapOrSet then .raw
      else if o.isRegExp then .raw
      else base
    | _ => base

/-- An environment without the workers interop module. -/
def envPlain : Env := { workersPresent := false }

/-- An environment with the workers interop module injected. -/
def envWorkers : Env := { workersPresent := true }

/-- Errors a transport latches in its private error field; abort reasons and
socket close data carry opaque numeric payloads. -/
inductive TransportError
  | peerClosedPort
  | unsupportedPortMessage
  | portMessageError
  | peerClosedSocket (code : Nat) (reason : Nat)
  | unsupportedSocketMessage
  | socketFailed
  | streamClosed
  | peerClosedExtension
  | aborted (reason : Nat)
  deriving DecidableEq

/-- Result of one call to a transport send method. -/
inductive SendResult
  | sent
  | failed (e : TransportError)
  deriving DecidableEq

/-- Result of one call to a transport receive method: a queued message, a
thrown error, or a promise left pending with the resolver stored. -/
inductive ReceiveResult
  | delivered (m : Nat)
  | failed (e : TransportError)
  | pendingWait
  deriving DecidableEq

/-- Effect of an inbound event on a pending receive promise. -/
inductive TransportOutput
  | silent
  | resolvedReceive (m : Nat)
  | rejectedReceive (e : TransportError)
  deriving DecidableEq

/-! ### Byte-stream framing (StreamTransport, src/unnamed/part_005) -/

/-- The 4-byte big-endian length written by StreamTransport.send via
DataView.setUint32 with littleEndian false. -/
def be32enc (n : Nat) : List Nat :=
  [n / 2 ^ 24 % 256, n / 2 ^ 16 % 256, n / 2 ^ 8 % 256, n % 256]

/-- The big-endian 32-bit read of the first four buffered bytes performed by
DataView.getUint32 with littleEndian false. -/
def be32dec : List Nat → Nat
  | b0 :: b1 :: b2 :: b3 :: _ => ((b0 * 256 + b1) * 256 + b2) * 256 + b3
  | _ => 0

/-- The wire bytes StreamTransport.send writes for one message: the 4-byte
big-endian length prefix, then the payload bytes. -/
def sendFrame (m : List Nat) : List Nat :=
  be32enc m.length ++ m

/-- Concatenated wire bytes of a sequence of sent messages. -/
def wireOf (ms : List (List Nat)) : List Nat :=
  (ms.map sendFrame).flatten

/-- The buffer-filling loops inside StreamTransport, private method
readWireMessage (part_005 lines 103-111 and 118-126): pull chunks from the
stream reader until at least need bytes are buffered; none models the stream
reporting done first. -/
def fillBuffer (need : Nat) :
    List (List Nat) → List Nat → Option (List Nat × List (List Nat))
  | chunks, buffer =>
    if need ≤ buffer.length then some (buffer, chunks)
    else
      match chunks with
      | [] => none
      | c :: rest => fillBuffer need rest (buffer ++ c)

/-- One call to the private readWireMessage of StreamTransport (part_005
lines 100-133): buffer up the 4-byte big-endian length prefix, drop it, then
buffer up that many payload bytes; returns the message, the remaining
buffered bytes and the remaining chunks. -/
def readWireMessage (buffer : List Nat) (chunks : List (List Nat)) :
    Option (List Nat × List Nat × List (List Nat)) :=
  match fillBuffer 4 chunks buffer with
  | none => none
  | some (b1, cs1) =>
    let expectedLength := be32dec b1
    match fillBuffer expectedLength cs1 (b1.drop 4) with
    | none => none
    | some (b3, cs2) =>
      some (b3.take expectedLength, b3.drop expectedLength, cs2)

/-- Read n successive wire messages, as n calls to receive on a
StreamTransport whose readable stream delivers the given chunks. -/
def readMessages : Nat → List Nat → List (List Nat) → Option (List (List Nat))
  | 0, _, _ => some []
  | n + 1, buffer, chunks =>
    match readWireMessage buffer chunks with
    | none => none
    | some (m, b, cs) =>
      match readMessages n b cs with
      | none => none
      | some ms => some (m :: ms)

/-- Write-side state of StreamTransport: the latched error and the bytes
written to the writable stream so far. -/
structure StreamTransport where
  error : Option TransportError := none
  written : List Nat := []
  deriving DecidableEq

/-- StreamTransport.send (part_005 lines 135-155): throw the latched error
if any, otherwise write the 4-byte big-endian length prefix followed by the
payload bytes. The write path where the writer itself fails is an external
stream failure and is not modelled. -/
def StreamTransport.send (s : StreamTransport) (m : List Nat) :
    StreamTransport × SendResult :=
  match s.error with
  | some e => (s, .failed e)
  | none => ({ s with written := s.written ++ sendFrame m }, .sent)

/-- Sequentially send each message of a list through StreamTransport.send. -/
def StreamTransport.sendAll (s : StreamTransport) :
    List (List Nat) → StreamTransport
  | [] => s
  | m :: ms => ((s.send m).1).sendAll ms

/-! ### MessagePortTransport (src/src/messageport.ts) -/

/-- State of MessagePortTransport: the private receiveQueue, whether a
receive promise is pending with its resolver stored, the latched error, and
the frames posted on the endpoint by send. -/
structure MessagePortTransport where
  receiveQueue : List Nat := []
  pendingReceive : Bool := false
  error : Option TransportError := none
  posted : List Nat := []
  deriving DecidableEq

/-- The private receivedError of MessagePortTransport (messageport.ts lines
117-126): latch the reason only when no error is latched yet, rejecting a
pending receive with it. -/
def MessagePortTransport.receivedError (s : MessagePortTransport)
    (reason : TransportError) : MessagePortTransport × TransportOutput :=
  if s.error.isSome then (s, .silent)
  else if s.pendingReceive then
    ({ s with error := some reason, pendingReceive := false },
     .rejectedReceive reason)
  else ({ s with error := some reason }, .silent)

/-- MessagePortTransport.receive (messageport.ts lines 85-96): pop the
queue, else throw the latched error, else leave a pending promise. -/
def MessagePortTransport.receive (s : MessagePortTransport) :
    MessagePortTransport × ReceiveResult :=
  match s.receiveQueue with
  | m :: rest => ({ s with receiveQueue := rest }, .delivered m)
  | [] =>
    match s.error with
    | some e => (s, .failed e)
    | none => ({ s with pendingReceive := true }, .pendingWait)

/-- MessagePortTransport.send (messageport.ts lines 78-83): throw the
latched error if any, otherwise post the frame on the endpoint. -/
def MessagePortTransport.send (s : MessagePortTransport) (m : Nat) :
    MessagePortTransport × SendResult :=
  match s.error with
  | some e => (s, .failed e)
  | none => ({ s with posted := s.posted ++ [m] }, .sent)

/-- Everything that can happen to a MessagePortTransport: the message
listener firing with close-typed, message-typed or other data, the
messageerror listener, and the abort, receive and send methods. -/
inductive PortEvent
  | closeSignal
  | wireMessage (m : Nat)
  | unsupportedData
  | messageErrorEvent
  | abortCall (reason : Nat)
  | receiveCall
  | sendCall (m : Nat)
  deriving DecidableEq

/-- State transition of MessagePortTransport for one event: the two
listeners registered in the constructor (messageport.ts lines 47-69), abort
(lines 98-115), and the state effects of receive and send. -/
def MessagePortTransport.onEvent (s : MessagePortTransport) :
    PortEvent → MessagePortTransport
  | .closeSignal =>
    if s.error.isSome then s else (s.receivedError .peerClosedPort).1
  | .wireMessage m =>
    if s.error.isSome then s
    else if s.pendingReceive then { s with pendingReceive := false }
    else { s with receiveQueue := s.receiveQueue ++ [m] }
  | .unsupportedData =>
    if s.error.isSome then s else (s.receivedError .unsupportedPortMessage).1
  | .messageErrorEvent => (s.receivedError .portMessageError).1
  | .abortCall r =>
    if s.error.isSome then s else { s with error := some (.aborted r) }
  | .receiveCall => (s.receive).1
  | .sendCall m => (s.send m).1

/-- Run a MessagePortTransport through a sequence of events. -/
def MessagePortTransport.run (s : MessagePortTransport) :
    List PortEvent → MessagePortTransport
  | [] => s
  | ev :: evs => (s.onEvent ev).run evs

/-! ### WebSocketTransport (src/src/websocket.ts) -/

/-- State of WebSocketTransport: the pre-open send queue (some while the
socket is still connecting, none once open), the private receiveQueue,
whether a receive promise is pending, the latched error, and the frames
passed to the underlying socket send so far. -/
structure WebSocketTransport where
  sendQueue : Option (List Nat) := some []
  receiveQueue : List Nat := []
  pendingReceive : Bool := false
  error : Option TransportError := none
  wire : List Nat := []
  deriving DecidableEq

/-- The private receivedError of WebSocketTransport (websocket.ts lines
131-140): latch the reason only when no error is latched yet, rejecting a
pending receive with it. -/
def WebSocketTransport.receivedError (s : WebSocketTransport)
    (reason : TransportError) : WebSocketTransport × TransportOutput :=
  if s.error.isSome then (s, .silent)
  else if s.pendingReceive then
    ({ s with error := some reason, pendingReceive := false },
     .rejectedReceive reason)
  else ({ s with error := some reason }, .silent)

/-- WebSocketTransport.receive (websocket.ts lines 103-114): pop the queue,
else throw the latched error, else leave a pending promise. -/
def WebSocketTransport.receive (s : WebSocketTransport) :
    WebSocketTransport × ReceiveResult :=
  match s.receiveQueue with
  | m :: rest => ({ s with receiveQueue := rest }, .delivered m)
  | [] =>
    match s.error with
    | some e => (s, .failed e)
    | none => ({ s with pendingReceive := true }, .pendingWait)

/-- WebSocketTransport.send (websocket.ts lines 94-101): pass the message to
the underlying socket when already open, otherwise append it to the pre-open
queue; note there is no error check here. -/
def WebSocketTransport.send (s : WebSocketTransport) (m : Nat) :
    WebSocketTransport :=
  match s.sendQueue with
  | none => { s with wire := s.wire ++ [m] }
  | some q => { s with sendQueue := some (q ++ [m]) }

/-- Everything that can happen to a WebSocketTransport: the open, message,
close and error listeners registered in the constructor, and the abort,
receive and send methods. -/
inductive SocketEvent
  | openEvent
  | wireMessage (m : Nat)
  | unsupportedData
  | closeEvent (code : Nat) (reason : Nat)
  | errorEvent
  | abortCall (reason : Nat)
  | receiveCall
  | sendCall (m : Nat)
  deriving DecidableEq

/-- State transition of WebSocketTransport for one event: the listeners
registered in the constructor (websocket.ts lines 47-84), abort (lines
116-129), and the state effects of receive and send. On open, the queued
messages are flushed to the socket in submission order and the queue is
cleared. -/
def WebSocketTransport.onEvent (s : WebSocketTransport) :
    SocketEvent → WebSocketTransport
  | .openEvent =>
    match s.sendQueue with
    | some q => { s with wire := s.wire ++ q, sendQueue := none }
    | none => s
  | .wireMessage m =>
    if s.error.isSome then s
    else if s.pendingReceive then { s with pendingReceive := false }
    else { s with receiveQueue := s.receiveQueue ++ [m] }
  | .unsupportedData =>
    if s.error.isSome then s
    else (s.receivedError .unsupportedSocketMessage).1
  | .closeEvent c r => (s.receivedError (.peerClosedSocket c r)).1
  | .errorEvent => (s.receivedError .socketFailed).1
  | .abortCall r =>
    if s.error.isSome then s else { s with error := some (.aborted r) }
  | .receiveCall => (s.receive).1
  | .sendCall m => s.send m

/-- Run a WebSocketTransport through a sequence of events. -/
def WebSocketTransport.run (s : WebSocketTransport) :
    List SocketEvent → WebSocketTransport
  | [] => s
  | ev :: evs => (s.onEvent ev).run evs

/-- The state of a WebSocketTransport constructed around a socket whose
readyState is CONNECTING: the pre-open send queue starts empty. -/
def WebSocketTransport.initConnecting : WebSocketTransport := {}

/-- The messages passed to send, in call order, within an event sequence. -/
def socketSends : List SocketEvent → List Nat
  | [] => []
  | .sendCall m :: evs => m :: socketSends evs
  | _ :: evs => socketSends evs

/-! ### ChromeExtensionTransport (src/src/chrome-extension.ts) -/

/-- State of ChromeExtensionTransport: the bound tab id (given at
construction or auto-detected), whether the chrome message listener is still
attached, the private receiveQueue, whether a receive promise is pending,
the latched error, and the envelopes sent via chrome messaging. -/
structure ChromeExtensionTransport where
  tabId : Option Nat := none
  listenerAttached : Bool := true
  receiveQueue : List Nat := []
  pendingReceive : Bool := false
  error : Option TransportError := none
  posted : List Nat := []
  deriving DecidableEq

/-- The private receivedError of ChromeExtensionTransport
(chrome-extension.ts lines 249-258): latch the reason only when no error is
latched yet, rejecting a pending receive with it. -/
def ChromeExtensionTransport.receivedError (s : ChromeExtensionTransport)
    (reason : TransportError) : ChromeExtensionTransport × TransportOutput :=
  if s.error.isSome then (s, .silent)
  else if s.pendingReceive then
    ({ s with error := some reason, pendingReceive := false },
     .rejectedReceive reason)
  else ({ s with error := some reason }, .silent)

/-- Inbound chrome runtime messages: close-typed, message-typed, or
something not addressed to this transport. -/
inductive ExtensionMessage
  | closeSignal
  | wireMessage (m : Nat)
  | otherMessage
  deriving DecidableEq

/-- The private handleMessage of ChromeExtensionTransport
(chrome-extension.ts lines 131-172): ignore everything once the listener is
detached; auto-detect the tab id from the first sender carrying one; ignore
messages from any other tab; then dispatch close, message or other data as
the MessagePort transport does. senderTab models sender.tab and its id. -/
def ChromeExtensionTransport.handleMessage (s : ChromeExtensionTransport)
    (msg : ExtensionMessage) (senderTab : Option Nat) :
    ChromeExtensionTransport × TransportOutput :=
  if !s.listenerAttached then (s, .silent)
  else
    let s1 := if s.tabId.isNone && senderTab.isSome then
      { s with tabId := senderTab } else s
    if s1.tabId.isSome && senderTab != s1.tabId then (s1, .silent)
    else if s1.error.isSome then (s1, .silent)
    else
      match msg with
      | .closeSignal => s1.receivedError .peerClosedExtension
      | .wireMessage m =>
        if s1.pendingReceive then
          ({ s1 with pendingReceive := false }, .resolvedReceive m)
        else ({ s1 with receiveQueue := s1.receiveQueue ++ [m] }, .silent)
      | .otherMessage => (s1, .silent)

/-- ChromeExtensionTransport.send (chrome-extension.ts lines 174-207): throw
the latched error if any, otherwise send the envelope through chrome
messaging. The paths where the chrome API itself reports a failure are
external failures and are not modelled. -/
def ChromeExtensionTransport.send (s : ChromeExtensionTransport) (m : Nat) :
    ChromeExtensionTransport × SendResult :=
  match s.error with
  | some e => (s, .failed e)
  | none => ({ s with posted := s.posted ++ [m] }, .sent)

/-- ChromeExtensionTransport.receive (chrome-extension.ts lines 209-220):
pop the queue, else throw the latched error, else leave a pending promise. -/
def ChromeExtensionTransport.receive (s : ChromeExtensionTransport) :
    ChromeExtensionTransport × ReceiveResult :=
  match s.receiveQueue with
  | m :: rest => ({ s with receiveQueue := rest }, .delivered m)
  | [] =>
    match s.error with
    | some e => (s, .failed e)
    | none => ({ s with pendingReceive := true }, .pendingWait)

/-! ### Predicates used to state the classification claims -/

/-- The plain primitive class as the claim words it: booleans, finite
numbers, strings and null. -/
def specPlainPrimitive : HostValue → Bool
  | .boolean _ => true
  | .number k => k == .finite
  | .string _ => true
  | .null => true
  | _ => false

/-- The class of values JsonCodec.typeForRpc actually maps to primitive:
booleans, all numbers (finite or not), strings and null. -/
def specJsonPrimitive : HostValue → Bool
  | .boolean _ => true
  | .number _ => true
  | .string _ => true
  | .null => true
  | _ => false

/-- The exact prototypes enumerated by the switch of JsonCodec.typeForRpc. -/
def switchedProto : ProtoTag → Bool
  | .objectProto => true
  | .functionProto => true
  | .arrayProto => true
  | .dateProto => true
  | .uint8ArrayProto => true
  | .rpcStubProto => true
  | .rpcPromiseProto => true
  | _ => false

/-- Whether the injected workers module recognizes the object as one of its
RPC classes (the default branch of jsonTypeForRpc, part_005 lines 290-302). -/
def workersRecognized (env : Env) (o : HostObject) : Bool :=
  env.workersPresent &&
    (o.proto == .workersRpcStubProto || o.isWorkersServiceStub ||
      o.proto == .workersRpcPromiseProto || o.proto == .workersRpcPropertyProto)

/-! ### Lemmas about the byte-stream framing -/

/-- The filling loop succeeds and preserves the underlying byte stream
whenever the stream holds enough bytes. -/
theorem fillBuffer_spec (need : Nat) :
    ∀ (chunks : List (List Nat)) (buffer : List Nat),
      need ≤ buffer.length + chunks.flatten.length →
      ∃ b cs, fillBuffer need chunks buffer = some (b, cs) ∧
        b ++ cs.flatten = buffer ++ chunks.flatten ∧ need ≤ b.length := by
  intro chunks
  induction chunks with
  | nil =>
    intro buffer h
    simp only [List.flatten_nil, List.length_nil, Nat.add_zero] at h
    exact ⟨buffer, [], by simp [fillBuffer, h], by simp, h⟩
  | cons c rest ih =>
    intro buffer h
    by_cases hle : need ≤ buffer.length
    · exact ⟨buffer, c :: rest, by simp [fillBuffer, hle], rfl, hle⟩
    · have h2 : need ≤ (buffer ++ c).length + rest.flatten.length := by
        simp only [List.flatten_cons, List.length_append] at h ⊢
        omega
      obtain ⟨b, cs, heq, hjoin, hlen⟩ := ih (buffer ++ c) h2
      refine ⟨b, cs, by simp [fillBuffer, hle, heq], ?_, hlen⟩
      rw [hjoin, List.flatten_cons, List.append_assoc]

/-- Splitting an equation between concatenations at the length of the first
part of the right side. -/
theorem take_drop_of_append_eq {b c x y : List Nat} (h : b ++ c = x ++ y)
    (hl : x.length ≤ b.length) :
    b.take x.length = x ∧ b.drop x.length ++ c = y := by
  constructor
  · have ht := congrArg (List.take x.length) h
    rwa [List.take_append_of_le_length hl, List.take_left] at ht
  · have hd := congrArg (List.drop x.length) h
    rwa [List.drop_append_of_le_length hl, List.drop_left] at hd

/-- Reading back a 4-byte big-endian length recovers it when it fits in 32
bits, whatever bytes follow. -/
theorem be32_roundTrip (n : Nat) (l : List Nat) (h : n < 2 ^ 32) :
    be32dec (be32enc n ++ l) = n := by
  simp only [be32enc, List.cons_append, List.nil_append, be32dec]
  omega

/-- One receive on a StreamTransport whose pending stream bytes start with
one full frame extracts exactly that message and consumes exactly that
frame. -/
theorem readWireMessage_spec (m rest buffer : List Nat)
    (chunks : List (List Nat)) (hm : m.length < 2 ^ 32)
    (hw : buffer ++ chunks.flatten = sendFrame m ++ rest) :
    ∃ b cs, readWireMessage buffer chunks = some (m, b, cs) ∧
      b ++ cs.flatten = rest := by
  have henc : (be32enc m.length).length = 4 := by simp [be32enc]
  have htotal : 4 ≤ buffer.length + chunks.flatten.length := by
    have := congrArg List.length hw
    simp only [List.length_append, sendFrame, henc] at this
    omega
  obtain ⟨b1, cs1, hfill1, hjoin1, hlen1⟩ := fillBuffer_spec 4 chunks buffer htotal
  rw [hw] at hjoin1
  rw [sendFrame, List.append_assoc] at hjoin1
  have hsplit1 := take_drop_of_append_eq hjoin1 (by rw [henc]; exact hlen1)
  rw [henc] at hsplit1
  obtain ⟨htake1, hdrop1⟩ := hsplit1
  have hdec : be32dec b1 = m.length := by
    conv_lhs => rw [← List.take_append_drop 4 b1]
    rw [htake1]
    exact be32_roundTrip m.length (b1.drop 4) hm
  have htotal2 : m.length ≤ (b1.drop 4).length + cs1.flatten.length := by
    have := congrArg List.length hdrop1
    simp only [List.length_append] at this
    omega
  obtain ⟨b3, cs2, hfill2, hjoin2, hlen2⟩ :=
    fillBuffer_spec m.length cs1 (b1.drop 4) htotal2
  rw [hdrop1] at hjoin2
  obtain ⟨htake3, hdrop3⟩ := take_drop_of_append_eq hjoin2 hlen2
  refine ⟨b3.drop m.length, cs2, ?_, hdrop3⟩
  rw [readWireMessage, hfill1]
  simp only [hdec, hfill2, htake3]

/-- Reading back any number of framed messages from any chunking of the
remaining stream bytes recovers them in order. -/
theorem readMessages_spec :
    ∀ (ms : List (List Nat)) (buffer : List Nat) (chunks : List (List Nat)),
      (∀ m ∈ ms, m.length < 2 ^ 32) →
      buffer ++ chunks.flatten = wireOf ms →
      readMessages ms.length buffer chunks = some ms := by
  intro ms
  induction ms with
  | nil => intro buffer chunks _ _; rfl
  | cons m ms ih =>
    intro buffer chunks hlen hw
    have hw2 : buffer ++ chunks.flatten = sendFrame m ++ wireOf ms := by
      rw [hw]; rfl
    obtain ⟨b, cs, hread, hrest⟩ :=
      readWireMessage_spec m (wireOf ms) buffer chunks
        (hlen m (List.mem_cons_self m ms)) hw2
    have hms := ih b cs (fun x hx => hlen x (List.mem_cons_of_mem m hx)) hrest
    simp only [List.length_cons, readMessages, hread, hms]

/-! ### Lemmas about the classifiers -/

/-- When the base classification of an object is unsupported, the object was
not an Error instance: the default branch tests instanceof Error just before
returning unsupported. -/
theorem json_unsupported_no_error (env : Env) (o : HostObject)
    (h : jsonTypeForRpc env (.obj o) = .unsupported) :
    o.isErrorInst = false := by
  obtain ⟨proto, tf, wss, rt, er, abv, ab, ms, re, rb⟩ := o
  cases er
  · rfl
  · exfalso
    cases proto <;> cases hwp : env.workersPresent <;> cases wss <;>
      cases rt <;> simp [jsonTypeForRpc, hwp] at h

/-- C3 (amended): JsonCodec.typeForRpc returns primitive exactly for
booleans, numbers (finite or not), strings and null; the classifier does not
single out Infinity, minus Infinity or NaN, whose distinguished encoding is
not part of classification. -/
theorem C3_jsonPrimitiveClassification (env : Env) (v : HostValue) :
    jsonTypeForRpc env v = .primitive ↔ specJsonPrimitive v = true := by
  cases v <;> simp [jsonTypeForRpc, specJsonPrimitive]
  case obj o =>
    obtain ⟨proto, tf, wss, rt, er, abv, ab, ms, re, rb⟩ := o
    cases proto <;> simp [jsonTypeForRpc] <;> split_ifs <;> simp

/-- C3 counterexample: the classifier returns primitive for NaN although NaN
is not a boolean, a finite number, a string or null. -/
theorem C3_counterexample :
    jsonTypeForRpc envPlain (.number .nan) = .primitive ∧
    specPlainPrimitive (.number .nan) = false := by decide

/-- C2 (amended): the V8 codec of part_005 classifies exactly as the
structured-clone codec; the V8 codec of part_003 agrees except that it keeps
base kind primitive as primitive (where the structured-clone codec returns
raw) and base kind error as error (where the structured-clone codec returns
error-raw), and that it lacks the raw-subtree brand check. -/
theorem C2_v8MatchesStructuredClone (env : Env) (v : HostValue) :
    v8StreamTypeForRpc env v = postMessageTypeForRpc env v ∧
    (jsonTypeForRpc env v = .primitive →
      v8BaseTypeForRpc env v = .primitive ∧
        postMessageTypeForRpc env v = .raw) ∧
    (jsonTypeForRpc env v = .error →
      v8BaseTypeForRpc env v = .error ∧
        postMessageTypeForRpc env v = .errorRaw) ∧
    (jsonTypeForRpc env v ≠ .primitive → jsonTypeForRpc env v ≠ .error →
      (∀ o, v = .obj o → o.typeofFn = false →
        rawSubtreeStructuredCloneOk o = false) →
      v8BaseTypeForRpc env v = postMessageTypeForRpc env v) := by
  refine ⟨rfl, ?_, ?_, ?_⟩
  · intro h
    constructor <;>
      simp [v8BaseTypeForRpc, postMessageTypeForRpc, coreTypeForRpc, h]
  · intro h
    constructor <;>
      simp [v8BaseTypeForRpc, postMessageTypeForRpc, coreTypeForRpc, h]
  · intro h1 h2 hbrand
    cases hb : jsonTypeForRpc env v
    case primitive => exact absurd hb h1
    case error => exact absurd hb h2
    case unsupported =>
      cases v
      case obj o =>
        have herr : o.isErrorInst = false := json_unsupported_no_error env o hb
        cases htf : o.typeofFn
        case false =>
          have hbr := hbrand o rfl htf
          simp [v8BaseTypeForRpc, postMessageTypeForRpc, coreTypeForRpc, hb,
            htf, hbr, herr]
        case true =>
          simp [v8BaseTypeForRpc, postMessageTypeForRpc, coreTypeForRpc, hb,
            htf]
      all_goals
        simp [v8BaseTypeForRpc, postMessageTypeForRpc, coreTypeForRpc, hb]
    all_goals
      simp [v8BaseTypeForRpc, postMessageTypeForRpc, coreTypeForRpc, hb]

/-- C2 counterexample: on the boolean true the part_003 V8 codec returns
primitive while the structured-clone codec returns raw. -/
theorem C2_counterexample :
    v8BaseTypeForRpc envPlain (.boolean true) ≠
      postMessageTypeForRpc envPlain (.boolean true) := by decide

/-- C6 (amended): under the structured-clone codec, booleans, numbers,
strings, null, undefined, bigints, dates, byte arrays, other typed arrays,
ArrayBuffer, Map, Set and RegExp all classify raw, while Error instances
classify error-raw (passed verbatim, but flagged so the devaluator skips the
error rewrite rather than treating them as plain raw). -/
theorem C6_postMessageRawClassification (env : Env) :
    (∀ b, postMessageTypeForRpc env (.boolean b) = .raw) ∧
    (∀ k, postMessageTypeForRpc env (.number k) = .raw) ∧
    (∀ s, postMessageTypeForRpc env (.string s) = .raw) ∧
    postMessageTypeForRpc env .null = .raw ∧
    postMessageTypeForRpc env .undefined = .raw ∧
    postMessageTypeForRpc env .bigint = .raw ∧
    (∀ o : HostObject, o.proto = .dateProto →
      postMessageTypeForRpc env (.obj o) = .raw) ∧
    (∀ o : HostObject, o.proto = .uint8ArrayProto →
      postMessageTypeForRpc env (.obj o) = .raw) ∧
    (∀ o : HostObject, jsonTypeForRpc env (.obj o) = .unsupported →
      o.typeofFn = false → o.rawBrand = none →
      (o.isArrayBufferView || o.isArrayBuffer ||
        o.isMapOrSet || o.isRegExp) = true →
      postMessageTypeForRpc env (.obj o) = .raw) ∧
    (∀ o : HostObject, jsonTypeForRpc env (.obj o) = .error →
      postMessageTypeForRpc env (.obj o) = .errorRaw) := by
  refine ⟨?_, ?_, ?_, ?_, ?_, ?_, ?_, ?_, ?_, ?_⟩
  · intro b; rfl
  · intro k; rfl
  · intro s; rfl
  · rfl
  · rfl
  · rfl
  · intro o hp; simp [postMessageTypeForRpc, jsonTypeForRpc, hp]
  · intro o hp; simp [postMessageTypeForRpc, jsonTypeForRpc, hp]
  · intro o hu htf hb hflag
    simp only [postMessageTypeForRpc, hu, htf,
      rawSubtreeStructuredCloneOk, hb]
    cases habv : o.isArrayBufferView <;> cases hab : o.isArrayBuffer <;>
      cases hms : o.isMapOrSet <;> cases hre : o.isRegExp <;>
        simp_all
  · intro o he; simp [postMessageTypeForRpc, he]

/-- C6 counterexample: a plain Error instance classifies error-raw under the
structured-clone codec, not raw. -/
theorem C6_counterexample :
    postMessageTypeForRpc envPlain
      (.obj { proto := .otherProto, isErrorInst := true }) ≠ .raw := by decide

/-- C7: classification is deterministic: under each codec present in the
source, the same host value in the same environment always yields the same
kind, for both ObjectCodec variants and both V8Codec variants alike. -/
theorem C7_classificationDeterministic (env : Env) (v w : HostValue)
    (h : v = w) :
    jsonTypeForRpc env v = jsonTypeForRpc env w ∧
    postMessageTypeForRpc env v = postMessageTypeForRpc env w ∧
    objectCodecTypeForRpc env v = objectCodecTypeForRpc env w ∧
    objectBaseTypeForRpc env v = objectBaseTypeForRpc env w ∧
    v8StreamTypeForRpc env v = v8StreamTypeForRpc env w ∧
    v8BaseTypeForRpc env v = v8BaseTypeForRpc env w := by
  subst h
  exact ⟨rfl, rfl, rfl, rfl, rfl, rfl⟩

/-- C8 (amended): an object whose exact prototype is none of the seven
switched prototypes, which is not an instance of RpcTarget or Error, and
which the injected workers module (when present) does not recognize as one
of its RPC classes, classifies unsupported; in particular instances of
subclasses of Array, Date or Uint8Array classify unsupported. -/
theorem C8_exactPrototypeClassification (env : Env) (o : HostObject)
    (hproto : switchedProto o.proto = false)
    (htarget : o.isRpcTargetInst = false)
    (herror : o.isErrorInst = false)
    (hworkers : workersRecognized env o = false) :
    jsonTypeForRpc env (.obj o) = .unsupported := by
  obtain ⟨proto, tf, wss, rt, er, abv, ab, ms, re, rb⟩ := o
  simp only [workersRecognized] at hworkers
  cases proto <;> cases hwp : env.workersPresent <;>
    simp_all [jsonTypeForRpc, switchedProto]

/-- C8 counterexample: with the workers module present, an object whose
exact prototype is the workers RpcStub prototype classifies rpc-target,
although that prototype is none of the seven switched prototypes and the
object is an instance of neither RpcTarget nor Error. -/
theorem C8_counterexample :
    jsonTypeForRpc envWorkers
        (.obj { proto := .workersRpcStubProto }) = .rpcTarget ∧
    switchedProto ProtoTag.workersRpcStubProto = false ∧
    ({ proto := .workersRpcStubProto : HostObject }).isRpcTargetInst
      = false ∧
    ({ proto := .workersRpcStubProto : HostObject }).isErrorInst = false := by
  decide

/-! ### Lemmas about the transports -/

/-- One MessagePortTransport event never replaces a latched error. -/
theorem MessagePortTransport.onEvent_keepsError (s : MessagePortTransport)
    (ev : PortEvent) (e : TransportError) (h : s.error = some e) :
    (s.onEvent ev).error = some e := by
  have hs : s.error.isSome = true := by rw [h]; rfl
  cases ev <;>
    simp only [onEvent, receivedError, receive, send, hs, h, if_true,
      reduceIte] <;>
    first
      | exact h
      | rfl
      | (cases hq : s.receiveQueue <;> simp [hq, h])

/-- A MessagePortTransport keeps its first latched error through any later
sequence of events and calls. -/
theorem MessagePortTransport.run_keepsError (evs : List PortEvent) :
    ∀ (s : MessagePortTransport) (e : TransportError), s.error = some e →
      (s.run evs).error = some e := by
  induction evs with
  | nil => intro s e h; exact h
  | cons ev evs ih =>
    intro s e h
    exact ih (s.onEvent ev) e (onEvent_keepsError s ev e h)

/-- One WebSocketTransport event never replaces a latched error. -/
theorem WebSocketTransport.onEvent_holdsError (s : WebSocketTransport)
    (ev : SocketEvent) (e : TransportError) (h : s.error = some e) :
    (s.onEvent ev).error = some e := by
  have hs : s.error.isSome = true := by rw [h]; rfl
  cases ev <;>
    simp only [onEvent, receivedError, receive, send, hs, h, if_true,
      reduceIte] <;>
    first
      | exact h
      | rfl
      | (cases hq : s.receiveQueue <;> simp [hq, h])
      | (cases hq : s.sendQueue <;> simp [hq, h])

/-- A WebSocketTransport keeps its first latched error through any later
sequence of events and calls. -/
theorem WebSocketTransport.run_holdsError (evs : List SocketEvent) :
    ∀ (s : WebSocketTransport) (e : TransportError), s.error = some e →
      (s.run evs).error = some e := by
  induction evs with
  | nil => intro s e h; exact h
  | cons ev evs ih =>
    intro s e h
    exact ih (s.onEvent ev) e (onEvent_holdsError s ev e h)

/-- One WebSocketTransport event changes the transmitted frames and the
pre-open queue exactly by the message it sends, if any. -/
theorem WebSocketTransport.onEvent_wire (s : WebSocketTransport)
    (ev : SocketEvent) :
    (s.onEvent ev).wire ++ ((s.onEvent ev).sendQueue.getD []) =
      (s.wire ++ s.sendQueue.getD []) ++ socketSends [ev] := by
  cases ev <;>
    cases hq : s.sendQueue <;> cases he : s.error <;>
    cases hp : s.pendingReceive <;> cases hr : s.receiveQueue <;>
    simp [onEvent, receivedError, receive, send, socketSends, hq, he, hp, hr]

/-- Running a WebSocketTransport accumulates on the wire and in the pre-open
queue exactly the messages passed to send, in order. -/
theorem WebSocketTransport.run_wire (evs : List SocketEvent) :
    ∀ s : WebSocketTransport,
      (s.run evs).wire ++ ((s.run evs).sendQueue.getD []) =
        (s.wire ++ s.sendQueue.getD []) ++ socketSends evs := by
  induction evs with
  | nil => intro s; simp [run, socketSends]
  | cons ev evs ih =>
    intro s
    have h1 := ih (s.onEvent ev)
    have h2 := onEvent_wire s ev
    have h3 : socketSends (ev :: evs) = socketSends [ev] ++ socketSends evs := by
      cases ev <;> simp [socketSends]
    calc (s.run (ev :: evs)).wire ++ ((s.run (ev :: evs)).sendQueue.getD [])
        = ((s.onEvent ev).run evs).wire ++
            (((s.onEvent ev).run evs).sendQueue.getD []) := rfl
      _ = ((s.onEvent ev).wire ++ (s.onEvent ev).sendQueue.getD []) ++
            socketSends evs := h1
      _ = ((s.wire ++ s.sendQueue.getD []) ++ socketSends [ev]) ++
            socketSends evs := by rw [h2]
      _ = (s.wire ++ s.sendQueue.getD []) ++ socketSends (ev :: evs) := by
            rw [h3, List.append_assoc]

/-- Sending a list of messages through an error-free StreamTransport writes
their framed concatenation to the stream and latches no error. -/
theorem StreamTransport.sendAll_written :
    ∀ (ms : List (List Nat)) (s : StreamTransport), s.error = none →
      (s.sendAll ms).written = s.written ++ wireOf ms ∧
        (s.sendAll ms).error = none := by
  intro ms
  induction ms with
  | nil => intro s h; exact ⟨by simp [sendAll, wireOf], h⟩
  | cons m ms ih =>
    intro s h
    have hstep : (s.send m).1 =
        { s with written := s.written ++ sendFrame m } := by
      simp [send, h]
    obtain ⟨h1, h2⟩ := ih (s.send m).1 (by rw [hstep]; exact h)
    refine ⟨?_, h2⟩
    rw [show s.sendAll (m :: ms) = ((s.send m).1).sendAll ms from rfl,
      h1, hstep]
    simp [wireOf, List.append_assoc]

/-! ### Claim theorems about the transports -/

/-- C1: framing round trip: frame any finite sequence of byte messages by
StreamTransport.send (4-byte big-endian length prefix, then the payload),
split the resulting wire bytes into arbitrary read chunks, and the frame
reader yields exactly the original messages, in order. -/
theorem C1_streamFramingRoundTrip (ms : List (List Nat))
    (chunks : List (List Nat))
    (hlen : ∀ m ∈ ms, m.length < 2 ^ 32)
    (hchunks : chunks.flatten = (StreamTransport.sendAll {} ms).written) :
    readMessages ms.length [] chunks = some ms := by
  have hw := (StreamTransport.sendAll_written ms {} rfl).1
  rw [hw] at hchunks
  exact readMessages_spec ms [] chunks hlen (by simpa using hchunks)

/-- C1 witness: two concrete messages whose framed bytes are split across
chunk boundaries inside the length prefix and the payload. -/
theorem C1_streamFramingRoundTrip_witness :
    (∀ m ∈ [[106], [7, 9]], List.length m < 2 ^ 32) ∧
    readMessages 2 [] [[0], [0, 0, 1, 106, 0], [0, 0, 2, 7, 9]] =
      some [[106], [7, 9]] := by
  refine ⟨by decide, ?_⟩
  exact C1_streamFramingRoundTrip [[106], [7, 9]]
    [[0], [0, 0, 1, 106, 0], [0, 0, 2, 7, 9]] (by decide) (by decide)

/-- C4: for MessagePortTransport and WebSocketTransport the first latched
error is never replaced by any later event or call; while the receive queue
is empty every receive call fails with exactly that first error; and when
the first error arrives while a receive is pending, that pending receive is
rejected with it immediately. -/
theorem C4_transportErrorLatching :
    (∀ (s : MessagePortTransport) (evs : List PortEvent) (e : TransportError),
      s.error = some e → (s.run evs).error = some e) ∧
    (∀ (s : MessagePortTransport) (e : TransportError),
      s.error = some e → s.receiveQueue = [] → s.receive = (s, .failed e)) ∧
    (∀ (s : MessagePortTransport) (e : TransportError),
      s.error = none → s.pendingReceive = true →
      s.receivedError e =
        ({ s with error := some e, pendingReceive := false },
          .rejectedReceive e)) ∧
    (∀ (s : WebSocketTransport) (evs : List SocketEvent) (e : TransportError),
      s.error = some e → (s.run evs).error = some e) ∧
    (∀ (s : WebSocketTransport) (e : TransportError),
      s.error = some e → s.receiveQueue = [] → s.receive = (s, .failed e)) ∧
    (∀ (s : WebSocketTransport) (e : TransportError),
      s.error = none → s.pendingReceive = true →
      s.receivedError e =
        ({ s with error := some e, pendingReceive := false },
          .rejectedReceive e)) := by
  refine ⟨fun s evs e h => MessagePortTransport.run_keepsError evs s e h,
    ?_, ?_, fun s evs e h => WebSocketTransport.run_holdsError evs s e h, ?_, ?_⟩
  · intro s e h hq
    simp [MessagePortTransport.receive, hq, h]
  · intro s e h hp
    simp [MessagePortTransport.receivedError, h, hp]
  · intro s e h hq
    simp [WebSocketTransport.receive, hq, h]
  · intro s e h hp
    simp [WebSocketTransport.receivedError, h, hp]

/-- C4 witness: concrete errored and pending transports exercising each
conjunct of the latching theorem. -/
theorem C4_transportErrorLatching_witness :
    ((({ error := some .portMessageError } : MessagePortTransport).run
        [.wireMessage 3, .abortCall 0]).error = some .portMessageError) ∧
    (({ error := some .portMessageError } : MessagePortTransport).receive =
      (({ error := some .portMessageError } : MessagePortTransport),
        .failed .portMessageError)) ∧
    (({ pendingReceive := true } : MessagePortTransport).receivedError
        .peerClosedPort =
      (({ pendingReceive := false, error := some .peerClosedPort } :
          MessagePortTransport),
        .rejectedReceive .peerClosedPort)) ∧
    ((({ error := some .socketFailed } : WebSocketTransport).run
        [.sendCall 1, .closeEvent 2 3]).error = some .socketFailed) ∧
    (({ error := some .socketFailed } : WebSocketTransport).receive =
      (({ error := some .socketFailed } : WebSocketTransport),
        .failed .socketFailed)) ∧
    (({ pendingReceive := true } : WebSocketTransport).receivedError
        .socketFailed =
      (({ pendingReceive := false, error := some .socketFailed } :
          WebSocketTransport),
        .rejectedReceive .socketFailed)) := by
  have h := C4_transportErrorLatching
  exact ⟨h.1 _ _ _ rfl, h.2.1 _ _ rfl rfl, h.2.2.1 _ _ rfl rfl,
    h.2.2.2.1 _ _ _ rfl, h.2.2.2.2.1 _ _ rfl rfl, h.2.2.2.2.2 _ _ rfl rfl⟩

/-- C5: starting from a connecting socket, the frames passed to the
underlying socket followed by the still-queued messages are exactly the
messages passed to send, in order; once the socket has opened and the
pre-open queue is gone, the transmitted frames equal all sent messages in
submission order. -/
theorem C5_webSocketSendOrder (evs : List SocketEvent) :
    ((WebSocketTransport.initConnecting.run evs).wire ++
        ((WebSocketTransport.initConnecting.run evs).sendQueue.getD []) =
      socketSends evs) ∧
    ((WebSocketTransport.initConnecting.run evs).sendQueue = none →
      (WebSocketTransport.initConnecting.run evs).wire = socketSends evs) := by
  have h := WebSocketTransport.run_wire evs WebSocketTransport.initConnecting
  have hinit : WebSocketTransport.initConnecting.wire ++
      (WebSocketTransport.initConnecting.sendQueue.getD []) = [] := rfl
  rw [hinit, List.nil_append] at h
  refine ⟨h, fun hq => ?_⟩
  rw [hq] at h
  simpa using h

/-- C5 witness: one message sent while connecting, the open event, then a
second message; the socket transmits both in submission order. -/
theorem C5_webSocketSendOrder_witness :
    ((WebSocketTransport.initConnecting.run
        [.sendCall 1, .openEvent, .sendCall 2]).sendQueue = none) ∧
    ((WebSocketTransport.initConnecting.run
        [.sendCall 1, .openEvent, .sendCall 2]).wire =
      socketSends [.sendCall 1, .openEvent, .sendCall 2]) := by
  refine ⟨rfl, ?_⟩
  exact (C5_webSocketSendOrder [.sendCall 1, .openEvent, .sendCall 2]).2 rfl

/-- C9: for MessagePortTransport, StreamTransport and
ChromeExtensionTransport, once an error is latched every later send throws
exactly that stored error, transmits nothing, and leaves the transport
state unchanged. -/
theorem C9_sendFailsAfterError :
    (∀ (s : MessagePortTransport) (m : Nat) (e : TransportError),
      s.error = some e → s.send m = (s, .failed e)) ∧
    (∀ (s : StreamTransport) (m : List Nat) (e : TransportError),
      s.error = some e → s.send m = (s, .failed e)) ∧
    (∀ (s : ChromeExtensionTransport) (m : Nat) (e : TransportError),
      s.error = some e → s.send m = (s, .failed e)) := by
  refine ⟨?_, ?_, ?_⟩ <;> intro s m e h <;>
    simp [MessagePortTransport.send, StreamTransport.send,
      ChromeExtensionTransport.send, h]

/-- C9 witness: concrete errored transports whose send throws the stored
error and changes nothing. -/
theorem C9_sendFailsAfterError_witness :
    (({ error := some (.aborted 7) } : MessagePortTransport).send 5 =
      (({ error := some (.aborted 7) } : MessagePortTransport),
        .failed (.aborted 7))) ∧
    (({ error := some .streamClosed } : StreamTransport).send [1, 2] =
      (({ error := some .streamClosed } : StreamTransport),
        .failed .streamClosed)) ∧
    (({ error := some .peerClosedExtension } :
        ChromeExtensionTransport).send 5 =
      (({ error := some .peerClosedExtension } : ChromeExtensionTransport),
        .failed .peerClosedExtension)) := by
  have h := C9_sendFailsAfterError
  exact ⟨h.1 _ _ _ rfl, h.2.1 _ _ _ rfl, h.2.2 _ _ _ rfl⟩

/-- C10: once the transport is bound to a tab id, handling an inbound
message whose sender tab id differs leaves the transport state unchanged
and produces no effect: nothing is enqueued, no pending receive is resolved
or rejected, and no error is recorded. -/
theorem C10_chromeTabFilter (s : ChromeExtensionTransport)
    (msg : ExtensionMessage) (senderTab : Option Nat) (t : Nat)
    (hbound : s.tabId = some t) (hdiff : senderTab ≠ some t) :
    s.handleMessage msg senderTab = (s, .silent) := by
  have hne : (senderTab != s.tabId) = true := by
    rw [hbound]
    exact bne_iff_ne.mpr hdiff
  cases hl : s.listenerAttached
  · simp [ChromeExtensionTransport.handleMessage, hl]
  · simp only [ChromeExtensionTransport.handleMessage, hl, hbound, hne]
    simp [hbound]
    intro hcontra
    exact absurd hcontra hdiff

/-- C10 witness: a transport bound to tab 5 ignores a message from tab 3. -/
theorem C10_chromeTabFilter_witness :
    ({ tabId := some 5 } : ChromeExtensionTransport).handleMessage
        (.wireMessage 9) (some 3) =
      (({ tabId := some 5 } : ChromeExtensionTransport), .silent) :=
  C10_chromeTabFilter _ (.wireMessage 9) (some 3) 5 rfl (by decide)

/-! ### Witnesses for the classification claims -/

/-- C2 witness: the primitive divergence conjunct and the default agreement
conjunct applied at concrete values. -/
theorem C2_v8MatchesStructuredClone_witness :
    (v8BaseTypeForRpc envPlain (.boolean true) = .primitive ∧
      postMessageTypeForRpc envPlain (.boolean true) = .raw) ∧
    v8BaseTypeForRpc envPlain .bigint =
      postMessageTypeForRpc envPlain .bigint := by
  refine ⟨(C2_v8MatchesStructuredClone envPlain (.boolean true)).2.1 rfl, ?_⟩
  exact (C2_v8MatchesStructuredClone envPlain .bigint).2.2.2
    (by decide) (by decide) (fun o h => absurd h (by simp))

/-- C6 witness: concrete raw classifications, including a Map, and the
Error instance case. -/
theorem C6_postMessageRawClassification_witness :
    postMessageTypeForRpc envPlain (.boolean true) = .raw ∧
    postMessageTypeForRpc envPlain
      (.obj { proto := .otherProto, isMapOrSet := true }) = .raw ∧
    postMessageTypeForRpc envPlain
      (.obj { proto := .otherProto, isErrorInst := true }) = .errorRaw := by
  have h := C6_postMessageRawClassification envPlain
  exact ⟨h.1 true,
    h.2.2.2.2.2.2.2.2.1 _ (by decide) rfl rfl (by decide),
    h.2.2.2.2.2.2.2.2.2 _ (by decide)⟩

/-- C7 witness: determinism applied at a concrete value. -/
theorem C7_classificationDeterministic_witness :
    jsonTypeForRpc envPlain .bigint = jsonTypeForRpc envPlain .bigint ∧
    postMessageTypeForRpc envPlain .bigint =
      postMessageTypeForRpc envPlain .bigint ∧
    objectCodecTypeForRpc envPlain .bigint =
      objectCodecTypeForRpc envPlain .bigint ∧
    objectBaseTypeForRpc envPlain .bigint =
      objectBaseTypeForRpc envPlain .bigint ∧
    v8StreamTypeForRpc envPlain .bigint =
      v8StreamTypeForRpc envPlain .bigint ∧
    v8BaseTypeForRpc envPlain .bigint = v8BaseTypeForRpc envPlain .bigint :=
  C7_classificationDeterministic envPlain .bigint .bigint rfl

/-- C8 witness: an instance of a subclass of Array (prototype outside the
switch, no instanceof facts) classifies unsupported. -/
theorem C8_exactPrototypeClassification_witness :
    jsonTypeForRpc envPlain (.obj { proto := .otherProto }) = .unsupported :=
  C8_exactPrototypeClassification envPlain { proto := .otherProto }
    (by decide) rfl rfl (by decide)

end CapnWeb
